import Mathlib

/-!
Shallow embedding of the ProjectHub backend core (src/backend/main.py,
src/backend/models.py): the permission-gated state-transition logic for
projects, milestones, team invitations and guide requests.

The MongoDB document store is modelled as lists of records; `find_one`
becomes `List.find?`, `update_one` updates the first matching record,
`update_many` maps a guarded update over the whole collection, and
`insert_one` appends.  Timestamps (`datetime.now`) are passed in as a
`now : Nat` parameter.  Each HTTP handler becomes a pure function
returning `Except ApiError` — every `raise HTTPException` in the
embedded handlers occurs before the first database write, so an error
result carries no state change.
-/

namespace ProjectHub

/-- Embedding of `bson.ObjectId(s)` validation: a string parses as an
ObjectId iff it is 24 hexadecimal characters.  Handlers wrap the
constructor in `try/except InvalidId`. -/
def isValidObjectId (s : String) : Bool :=
  s.length == 24 && s.toList.all (fun c => c.isDigit || ('a' ≤ c && c ≤ 'f') || ('A' ≤ c && c ≤ 'F'))

/-- Python truthiness of an optional string field (`if project.get("guideId"):`):
`None` and the empty string are falsy. -/
def truthyOptStr : Option String → Bool
  | none => false
  | some s => s != ""

/-- ASCII lower-casing of one character (`str.lower()` per character;
the emails the handlers compare are ASCII). -/
def asciiLower (c : Char) : Char :=
  if 'A' ≤ c && c ≤ 'Z' then Char.ofNat (c.toNat + 32) else c

/-- Embedding of Python `str.lower()`. -/
def pyLower (s : String) : String := String.mk (s.toList.map asciiLower)

/-- ASCII whitespace recognised by Python `str.strip()`. -/
def isPySpace (c : Char) : Bool :=
  c == ' ' || c == '\t' || c == '\n' || c == '\r' || c == '\x0b' || c == '\x0c'

/-- Embedding of Python `str.strip()`: drop whitespace at both ends. -/
def pyStrip (s : String) : String :=
  String.mk (((s.toList.dropWhile isPySpace).reverse.dropWhile isPySpace).reverse)

/-- User record (the fields the core handlers read). -/
structure User where
  id : String
  fullName : String
  email : String
  role : String
  department : String
  deriving Repr, DecidableEq

/-- Embedded milestone (models.py `Milestone`). -/
structure Milestone where
  name : String
  status : String
  order : Nat
  deriving Repr, DecidableEq

/-- Embedded team member (models.py `TeamMember`); `fullName` is the
key `get_project` adds in memory during name population. -/
structure TeamMember where
  userId : String
  role : Option String
  isLeader : Bool
  joinedAt : Nat
  fullName : Option String
  deriving Repr, DecidableEq

/-- Project document (models.py `ProjectInDB`). -/
structure Project where
  id : String
  name : String
  description : String
  courseCode : Option String
  ownerId : String
  ownerName : String
  department : String
  status : String
  teamMembers : List TeamMember
  guideId : Option String
  guideName : Option String
  milestones : List Milestone
  progress : Nat
  deadline : Option Nat
  createdAt : Nat
  updatedAt : Nat
  deriving Repr, DecidableEq

/-- Team invitation document (models.py `TeamInvitation`). -/
structure TeamInvitation where
  id : String
  projectId : String
  projectName : String
  inviterId : String
  inviterName : String
  inviteeId : String
  inviteeName : String
  status : String
  createdAt : Nat
  respondedAt : Option Nat
  deriving Repr, DecidableEq

/-- Guide request document (main.py:1157-1169; `deadline` is read back
with `guide_request.get("deadline")`, hence optional). -/
structure GuideRequest where
  id : String
  projectId : String
  projectName : String
  teacherId : String
  teacherName : String
  ownerId : String
  ownerName : String
  status : String
  declineReason : Option String
  deadline : Option Nat
  createdAt : Nat
  respondedAt : Option Nat
  deriving Repr, DecidableEq

/-- The four collections the core touches. -/
structure DB where
  users : List User
  projects : List Project
  team_invitations : List TeamInvitation
  guide_requests : List GuideRequest
  deriving Repr, DecidableEq

/-- models.py `UpdateMilestoneRequest`. -/
structure UpdateMilestoneRequest where
  milestoneOrder : Nat
  status : String
  deriving Repr, DecidableEq

/-- models.py `RespondToInviteRequest`. -/
structure RespondToInviteRequest where
  accept : Bool
  deriving Repr, DecidableEq

/-- models.py `SendGuideRequestRequest`: the class body is `pass`, so
the parsed request carries no fields at all (in particular no
`deadline`, although main.py:1166 reads one). -/
structure SendGuideRequestRequest where
  deriving Repr, DecidableEq

/-- models.py `RespondToGuideRequest`. -/
structure RespondToGuideRequest where
  accept : Bool
  declineReason : Option String
  deriving Repr, DecidableEq

/-- The HTTP error categories the handlers raise; `internalError` stands
for an uncaught Python exception surfaced as a 500 response. -/
inductive ApiError where
  | badRequest (detail : String)
  | forbidden (detail : String)
  | notFound (detail : String)
  | internalError (detail : String)
  deriving Repr, DecidableEq

/-- Evaluates to `true` exactly when a handler outcome is a NotFound error. -/
def resultIsNotFound {α : Type} : Except ApiError α → Bool
  | .error (.notFound _) => true
  | _ => false

/-- Mongo `update_one`: apply `f` to the first element satisfying `c`,
leave everything else untouched. -/
def updateFirst {α : Type} (c : α → Bool) (f : α → α) : List α → List α
  | [] => []
  | a :: rest => if c a then f a :: rest else a :: updateFirst c f rest

/-- Insertion step for `sort("updatedAt", -1)`: place `p` before the
first project whose `updatedAt` it is not below. -/
def insertByUpdatedDesc (p : Project) : List Project → List Project
  | [] => [p]
  | q :: rest =>
    if q.updatedAt ≤ p.updatedAt then p :: q :: rest
    else q :: insertByUpdatedDesc p rest

/-- Mongo `.sort("updatedAt", -1)`: most recently updated first. -/
def sortByUpdatedDesc : List Project → List Project
  | [] => []
  | p :: rest => insertByUpdatedDesc p (sortByUpdatedDesc rest)

/-- The name-population block of `get_project` (main.py:491-503):
resolve each team member's `fullName` from the user collection,
falling back to a placeholder, never failing the read. -/
def populateNames (users : List User) (p : Project) : Project :=
  { p with teamMembers := p.teamMembers.map (fun m =>
      if isValidObjectId m.userId then
        match users.find? (fun u => u.id == m.userId) with
        | some u => { m with fullName := some u.fullName }
        | none => { m with fullName := some "Unknown User" }
      else { m with fullName := some "Invalid User ID" }) }

/-- Handler `GET /projects/{project_id}` (main.py:467-518). -/
def get_project (project_id : String) (user : User) (db : DB) :
    Except ApiError Project :=
  if !isValidObjectId project_id then
    .error (.badRequest "Invalid project ID format")
  else
    match db.projects.find? (fun p => p.id == project_id) with
    | none => .error (.notFound "Project not found")
    | some project =>
      let project := populateNames db.users project
      let is_owner := project.ownerId == user.id
      let is_member := project.teamMembers.any (fun m => m.userId == user.id)
      let is_guide := project.guideId == some user.id
      if !(is_owner || is_member || is_guide) then
        .error (.forbidden "You don't have access to this project")
      else
        .ok project

/-- Handler `GET /projects` (main.py:401-437).  The Mongo query dict is a
conjunction of conditions, rendered here as list filters; note the
Python truthiness test `if status_filter:` skips the status condition
for both `None` and the empty string. -/
def list_projects (status_filter role_filter : Option String) (user : User)
    (db : DB) : List Project :=
  let base :=
    if user.role == "Student" then
      if role_filter == some "owner" then
        db.projects.filter (fun p => p.ownerId == user.id)
      else if role_filter == some "member" then
        db.projects.filter (fun p => p.teamMembers.any (fun m => m.userId == user.id))
      else
        db.projects.filter (fun p =>
          p.ownerId == user.id || p.teamMembers.any (fun m => m.userId == user.id))
    else if user.role == "Teacher" then
      db.projects.filter (fun p => p.guideId == some user.id)
    else
      db.projects
  let filtered :=
    match status_filter with
    | some s => if s != "" then base.filter (fun p => p.status == s) else base
    | none => base
  sortByUpdatedDesc filtered

/-- The milestone-update loop of `update_milestone` (main.py:673-679):
set the status of the first milestone whose `order` matches, `none`
when no milestone matches (`milestone_found` stays false). -/
def setMilestoneByOrder (ord : Nat) (st : String) :
    List Milestone → Option (List Milestone)
  | [] => none
  | m :: rest =>
    if m.order == ord then some ({ m with status := st } :: rest)
    else
      match setMilestoneByOrder ord st rest with
      | some rest' => some (m :: rest')
      | none => none

/-- Progress recomputation (main.py:688-689).  Python computes
`int((completed_count / len(milestones)) * 100)` in floating point;
for the quarters arising from the 4 fixed milestones the float values
are exact dyadic rationals, so truncation agrees with floor division. -/
def pyProgress (completed total : Nat) : Nat :=
  (completed * 100) / total

/-- The write `update_milestone` issues (main.py:692-701): store the
mutated milestone array, the recomputed progress, and the new
`updatedAt` on the matching project. -/
def milestoneUpdateState (project_id : String) (milestones' : List Milestone)
    (now : Nat) (db : DB) : DB :=
  let completed := (milestones'.filter (fun m => m.status == "completed")).length
  let progress := pyProgress completed milestones'.length
  { db with
    projects :=
      updateFirst (fun p => p.id == project_id)
        (fun p => { p with milestones := milestones', progress := progress,
                           updatedAt := now }) db.projects }

/-- Handler `PUT /projects/{project_id}/milestones` (main.py:621-707). -/
def update_milestone (project_id : String) (md : UpdateMilestoneRequest)
    (user : User) (now : Nat) (db : DB) : Except ApiError (DB × Project) :=
  if !isValidObjectId project_id then
    .error (.badRequest "Invalid project ID format")
  else
    match db.projects.find? (fun p => p.id == project_id) with
    | none => .error (.notFound "Project not found")
    | some project =>
      let is_owner := project.ownerId == user.id
      let is_member := project.teamMembers.any (fun m => m.userId == user.id)
      let is_guide := project.guideId == some user.id
      if !(is_owner || is_member || is_guide) then
        .error (.forbidden "You don't have permission to edit this project")
      else if user.role == "Student" && md.status == "completed" then
        .error (.forbidden "Only the project guide can mark a phase as completed.")
      else if !(md.status == "not_started" || md.status == "in_progress"
                || md.status == "completed") then
        .error (.badRequest "Invalid milestone status")
      else
        match setMilestoneByOrder md.milestoneOrder md.status project.milestones with
        | none => .error (.badRequest "Milestone not found")
        | some milestones' =>
          let db' := milestoneUpdateState project_id milestones' now db
          match db'.projects.find? (fun p => p.id == project_id) with
          | some up => .ok (db', up)
          | none => .error (.internalError "updated project vanished")

/-- Handler `POST /projects/{project_id}/team/invite` (main.py:714-820).
`newId` stands for the `_id` the store generates at `insert_one`. -/
def send_team_invite (project_id inviteeEmail : String) (user : User)
    (now : Nat) (newId : String) (db : DB) :
    Except ApiError (DB × TeamInvitation) :=
  if !isValidObjectId project_id then
    .error (.badRequest "Invalid project ID format")
  else
    match db.projects.find? (fun p => p.id == project_id) with
    | none => .error (.notFound "Project not found")
    | some project =>
      if project.ownerId != user.id then
        .error (.forbidden "Only the project owner can send invitations")
      else
        match db.users.find? (fun u => u.email == pyLower inviteeEmail) with
        | none => .error (.notFound "Student not found")
        | some invitee =>
          if invitee.role != "Student" then
            .error (.badRequest "Can only invite students")
          else if invitee.department != project.department then
            .error (.badRequest "Can only invite students from your department")
          else if 1 + project.teamMembers.length ≥ 4 then
            .error (.badRequest "Team is full (max 4 members)")
          else if project.ownerId == invitee.id then
            .error (.badRequest "User is already project owner")
          else if project.teamMembers.any (fun m => m.userId == invitee.id) then
            .error (.badRequest "User is already team member")
          else
            match db.team_invitations.find? (fun i =>
                i.projectId == project_id && i.inviteeId == invitee.id
                && i.status == "pending") with
            | some _ => .error (.badRequest "Invitation already sent")
            | none =>
              let inv : TeamInvitation :=
                { id := newId, projectId := project_id,
                  projectName := project.name,
                  inviterId := user.id, inviterName := user.fullName,
                  inviteeId := invitee.id, inviteeName := invitee.fullName,
                  status := "pending", createdAt := now, respondedAt := none }
              .ok ({ db with team_invitations := db.team_invitations ++ [inv] }, inv)

/-- The writes of the accept branch of `respond_to_team_invite`
(main.py:906-940): `$push` the new member (role `None`, not leader)
onto the project and mark the invitation accepted. -/
def inviteAcceptState (invitation_id project_id user_id : String) (now : Nat)
    (db : DB) : DB :=
  let newMember : TeamMember :=
    { userId := user_id, role := none, isLeader := false,
      joinedAt := now, fullName := none }
  { db with
    projects := updateFirst (fun p => p.id == project_id)
      (fun p => { p with teamMembers := p.teamMembers ++ [newMember],
                         updatedAt := now }) db.projects,
    team_invitations := updateFirst (fun i => i.id == invitation_id)
      (fun i => { i with status := "accepted", respondedAt := some now })
      db.team_invitations }

/-- The write of the decline branch of `respond_to_team_invite`
(main.py:941-951). -/
def inviteDeclineState (invitation_id : String) (now : Nat) (db : DB) : DB :=
  { db with
    team_invitations :=
      updateFirst (fun i => i.id == invitation_id)
        (fun i => { i with status := "declined", respondedAt := some now })
        db.team_invitations }

/-- Handler `POST /invitations/team/{invitation_id}/respond` (main.py:851-957). -/
def respond_to_team_invite (invitation_id : String) (rd : RespondToInviteRequest)
    (user : User) (now : Nat) (db : DB) :
    Except ApiError (DB × TeamInvitation) :=
  if !isValidObjectId invitation_id then
    .error (.badRequest "Invalid invitation ID format")
  else
    match db.team_invitations.find? (fun i => i.id == invitation_id) with
    | none => .error (.notFound "Invitation not found")
    | some invitation =>
      if invitation.inviteeId != user.id then
        .error (.forbidden "Not your invitation")
      else if invitation.status != "pending" then
        .error (.badRequest "Invitation already responded to")
      else if !isValidObjectId invitation.projectId then
        .error (.badRequest "Invalid project ID in invitation")
      else
        match db.projects.find? (fun p => p.id == invitation.projectId) with
        | none => .error (.notFound "Project no longer exists")
        | some project =>
          if rd.accept then
            if 1 + project.teamMembers.length ≥ 4 then
              .error (.badRequest "Team is now full")
            else
              let db' := inviteAcceptState invitation_id invitation.projectId
                user.id now db
              match db'.team_invitations.find? (fun i => i.id == invitation_id) with
              | some ui => .ok (db', ui)
              | none => .error (.internalError "updated invitation vanished")
          else
            let db' := inviteDeclineState invitation_id now db
            match db'.team_invitations.find? (fun i => i.id == invitation_id) with
            | some ui => .ok (db', ui)
            | none => .error (.internalError "updated invitation vanished")

/-- Handler `POST /projects/{project_id}/guide/request` (main.py:1098-1175).
All validation passes, but building the request document evaluates
`request_data.deadline` (main.py:1166) while `models.SendGuideRequestRequest`
(models.py:217-220) declares no field at all; Pydantic raises
`AttributeError`, which the framework surfaces as an internal server
error, before `insert_one` is ever reached. -/
def send_guide_request (project_id : String) (_rd : SendGuideRequestRequest)
    (user : User) (_now : Nat) (db : DB) :
    Except ApiError (DB × GuideRequest) :=
  if user.role != "Teacher" then
    .error (.forbidden "Only teachers can send guide requests")
  else if !isValidObjectId project_id then
    .error (.badRequest "Invalid project ID format")
  else
    match db.projects.find? (fun p => p.id == project_id) with
    | none => .error (.notFound "Project not found")
    | some project =>
      if truthyOptStr project.guideId then
        .error (.badRequest "Project already has a guide")
      else if project.department != user.department then
        .error (.forbidden "Can only guide projects in your department")
      else
        match db.guide_requests.find? (fun r =>
            r.projectId == project_id && r.teacherId == user.id
            && r.status == "pending") with
        | some _ => .error (.badRequest "Request already sent")
        | none =>
          .error (.internalError
            "AttributeError: SendGuideRequestRequest object has no attribute deadline")

/-- The project update performed on guide-request accept
(main.py:1301-1316): set guide, copy the request's deadline, move the
project to `in_progress`, and advance every `not_started` milestone to
`in_progress` (the `array_filters` clause leaves advanced milestones
alone). -/
def applyGuideAccept (teacherId guideName : String) (deadline : Option Nat)
    (now : Nat) (p : Project) : Project :=
  { p with guideId := some teacherId,
           guideName := some guideName,
           deadline := deadline,
           status := "in_progress",
           milestones := p.milestones.map (fun m =>
             if m.status == "not_started" then { m with status := "in_progress" }
             else m),
           updatedAt := now }

/-- Guide name resolution on accept (main.py:1291-1299, 1307): look the
teacher up by id, falling back to "Unknown" for a malformed id, a
missing user, or a missing name. -/
def guideNameFor (db : DB) (gr : GuideRequest) : String :=
  match (if isValidObjectId gr.teacherId then
           db.users.find? (fun u => u.id == gr.teacherId)
         else none) with
  | some t => t.fullName
  | none => "Unknown"

/-- The write of the decline branch of `respond_to_guide_request`
(main.py:1256-1265). -/
def guideDeclineState (request_id reason : String) (now : Nat) (db : DB) : DB :=
  { db with
    guide_requests :=
      updateFirst (fun r => r.id == request_id)
        (fun r => { r with status := "declined", declineReason := some reason,
                           respondedAt := some now }) db.guide_requests }

/-- Marking the responded request accepted (main.py:1318-1327). -/
def markAccepted (now : Nat) (r : GuideRequest) : GuideRequest :=
  { r with status := "accepted", respondedAt := some now }

/-- One record's view of the `update_many` that declines all other
pending requests for the project (main.py:1329-1343): the filter is
same project, still pending, different `_id`. -/
def declineOther (pid request_id : String) (now : Nat) (r : GuideRequest) :
    GuideRequest :=
  if r.projectId == pid && r.status == "pending" && r.id != request_id then
    { r with status := "declined",
             declineReason := some "Another guide was accepted",
             respondedAt := some now }
  else r

/-- The writes of the accept branch of `respond_to_guide_request`
(main.py:1301-1343): update the project (`applyGuideAccept`), mark this
request accepted, then `update_many`-decline every other request for
the same project that is still pending. -/
def guideAcceptState (request_id : String) (gr : GuideRequest) (now : Nat)
    (db : DB) : DB :=
  { db with
    projects := updateFirst (fun p => p.id == gr.projectId)
      (applyGuideAccept gr.teacherId (guideNameFor db gr) gr.deadline now)
      db.projects,
    guide_requests :=
      (updateFirst (fun r => r.id == request_id) (markAccepted now)
        db.guide_requests).map (declineOther gr.projectId request_id now) }

/-- Handler `POST /requests/guide/{request_id}/respond` (main.py:1209-1349). -/
def respond_to_guide_request (request_id : String) (rd : RespondToGuideRequest)
    (user : User) (now : Nat) (db : DB) :
    Except ApiError (DB × GuideRequest) :=
  if !isValidObjectId request_id then
    .error (.badRequest "Invalid request ID format")
  else
    match db.guide_requests.find? (fun r => r.id == request_id) with
    | none => .error (.notFound "Guide request not found")
    | some gr =>
      if gr.ownerId != user.id then
        .error (.forbidden "Not your project")
      else if gr.status != "pending" then
        .error (.badRequest "Request already responded to")
      else if !rd.accept then
        match rd.declineReason with
        | none => .error (.badRequest "Decline reason is required")
        | some reason =>
          if pyStrip reason == "" then
            .error (.badRequest "Decline reason is required")
          else
            let db' := guideDeclineState request_id reason now db
            match db'.guide_requests.find? (fun r => r.id == request_id) with
            | some updated => .ok (db', updated)
            | none => .error (.internalError "updated request vanished")
      else
        if !isValidObjectId gr.projectId then
          .error (.badRequest "Invalid project ID in request")
        else
          match db.projects.find? (fun p => p.id == gr.projectId) with
          | none => .error (.notFound "Project no longer exists")
          | some project =>
            if truthyOptStr project.guideId then
              .error (.badRequest "Project already has a guide")
            else
              let db' := guideAcceptState request_id gr now db
              match db'.guide_requests.find? (fun r => r.id == request_id) with
              | some updated => .ok (db', updated)
              | none => .error (.internalError "updated request vanished")

/-! ## Store-level lemmas -/

theorem mem_updateFirst_of_not {α : Type} {c : α → Bool} {f : α → α}
    {l : List α} {x : α} (hx : x ∈ l) (hc : c x = false) :
    x ∈ updateFirst c f l := by
  induction l with
  | nil => cases hx
  | cons a rest ih =>
    simp only [updateFirst]
    rcases List.mem_cons.mp hx with rfl | hmem
    · rw [hc]; simp
    · split
      · exact List.mem_cons_of_mem _ hmem
      · exact List.mem_cons_of_mem _ (ih hmem)

theorem map_updateFirst_eq {α β : Type} {c : α → Bool} {f : α → α}
    (key : α → β) (hf : ∀ y, key (f y) = key y) (l : List α) :
    (updateFirst c f l).map key = l.map key := by
  induction l with
  | nil => rfl
  | cons a rest ih =>
    simp only [updateFirst]
    split
    · simp [hf]
    · simp [ih]

theorem exists_of_mem_updateFirst {α : Type} {c : α → Bool} {f : α → α}
    {l : List α} {x : α} (hx : x ∈ updateFirst c f l) :
    x ∈ l ∨ ∃ y, y ∈ l ∧ c y = true ∧ x = f y := by
  induction l with
  | nil => cases hx
  | cons a rest ih =>
    simp only [updateFirst] at hx
    by_cases hca : c a = true
    · rw [if_pos hca] at hx
      rcases List.mem_cons.mp hx with rfl | hmem
      · exact Or.inr ⟨a, List.mem_cons_self a rest, hca, rfl⟩
      · exact Or.inl (List.mem_cons_of_mem _ hmem)
    · rw [if_neg hca] at hx
      rcases List.mem_cons.mp hx with rfl | hmem
      · exact Or.inl (List.mem_cons_self x rest)
      · rcases ih hmem with h | ⟨y, hy, hcy, hxy⟩
        · exact Or.inl (List.mem_cons_of_mem _ h)
        · exact Or.inr ⟨y, List.mem_cons_of_mem _ hy, hcy, hxy⟩

/-- In a collection whose keys are unique (the store's `_id` index),
any element of the key-targeted `update_one` result that carries the
targeted key is the updated image of the unique original. -/
theorem updateFirst_key_unique {α β : Type} [DecidableEq β] (key : α → β)
    {f : α → α} {k : β} {l : List α} {x : α}
    (hnd : (l.map key).Nodup)
    (hx : x ∈ updateFirst (fun y => decide (key y = k)) f l)
    (hxk : key x = k) :
    ∃ y, y ∈ l ∧ key y = k ∧ x = f y := by
  induction l with
  | nil => cases hx
  | cons a rest ih =>
    simp only [List.map_cons, List.nodup_cons] at hnd
    simp only [updateFirst] at hx
    by_cases hak : key a = k
    · rw [if_pos (by simp [hak])] at hx
      rcases List.mem_cons.mp hx with rfl | hmem
      · exact ⟨a, List.mem_cons_self a rest, hak, rfl⟩
      · exfalso
        exact hnd.1 (hak ▸ hxk ▸ List.mem_map_of_mem key hmem)
    · rw [if_neg (by simp [hak])] at hx
      rcases List.mem_cons.mp hx with rfl | hmem
      · exact absurd hxk hak
      · rcases ih hnd.2 hmem with ⟨y, hy, hyk, hxy⟩
        exact ⟨y, List.mem_cons_of_mem _ hy, hyk, hxy⟩

/-- Elements of a uniquely-keyed collection that share a key are equal. -/
theorem eq_of_mem_key_nodup {α β : Type} {key : α → β} {l : List α} {a b : α}
    (hnd : (l.map key).Nodup) (ha : a ∈ l) (hb : b ∈ l)
    (hab : key a = key b) : a = b :=
  List.inj_on_of_nodup_map hnd ha hb hab

/-- Running `find_one` after a key-targeted `update_one` for the same key
returns the updated record. -/
theorem find?_updateFirst {α : Type} {c : α → Bool} {f : α → α}
    {l : List α} {a : α} (h : l.find? c = some a) (hfa : c (f a) = true) :
    (updateFirst c f l).find? c = some (f a) := by
  induction l with
  | nil => simp at h
  | cons x rest ih =>
    by_cases hcx : c x = true
    · rw [List.find?_cons_of_pos _ hcx] at h
      cases h
      simp only [updateFirst, if_pos hcx]
      exact List.find?_cons_of_pos _ hfa
    · rw [List.find?_cons_of_neg _ (by simp [hcx])] at h
      simp only [updateFirst, if_neg hcx]
      rw [List.find?_cons_of_neg _ (by simp [hcx])]
      exact ih h

/-! ## Sort lemmas -/

theorem mem_insertByUpdatedDesc {p x : Project} {l : List Project} :
    x ∈ insertByUpdatedDesc p l ↔ x = p ∨ x ∈ l := by
  induction l with
  | nil => simp [insertByUpdatedDesc]
  | cons q rest ih =>
    simp only [insertByUpdatedDesc]
    split
    · simp [List.mem_cons]
    · simp only [List.mem_cons, ih]
      tauto

theorem mem_sortByUpdatedDesc {x : Project} {l : List Project} :
    x ∈ sortByUpdatedDesc l ↔ x ∈ l := by
  induction l with
  | nil => simp [sortByUpdatedDesc]
  | cons p rest ih =>
    simp only [sortByUpdatedDesc, mem_insertByUpdatedDesc, ih, List.mem_cons]

theorem pairwise_insertByUpdatedDesc {p : Project} {l : List Project}
    (h : l.Pairwise (fun a b => b.updatedAt ≤ a.updatedAt)) :
    (insertByUpdatedDesc p l).Pairwise (fun a b => b.updatedAt ≤ a.updatedAt) := by
  induction l with
  | nil => simp [insertByUpdatedDesc]
  | cons q rest ih =>
    rcases List.pairwise_cons.mp h with ⟨hq, hrest⟩
    simp only [insertByUpdatedDesc]
    split
    · refine List.pairwise_cons.mpr ⟨?_, h⟩
      intro x hx
      rcases List.mem_cons.mp hx with rfl | hmem
      · assumption
      · exact le_trans (hq x hmem) (by assumption)
    · refine List.pairwise_cons.mpr ⟨?_, ih hrest⟩
      intro x hx
      rcases mem_insertByUpdatedDesc.mp hx with rfl | hmem
      · omega
      · exact hq x hmem

theorem pairwise_sortByUpdatedDesc (l : List Project) :
    (sortByUpdatedDesc l).Pairwise (fun a b => b.updatedAt ≤ a.updatedAt) := by
  induction l with
  | nil => exact List.Pairwise.nil
  | cons p rest ih => exact pairwise_insertByUpdatedDesc ih

/-! ## Milestone-update lemmas -/

/-- Default milestone used with `List.getD` in positional statements. -/
def mdef : Milestone := { name := "", status := "", order := 0 }

theorem setMilestoneByOrder_length {o : Nat} {s : String}
    {l l' : List Milestone} (h : setMilestoneByOrder o s l = some l') :
    l'.length = l.length := by
  induction l generalizing l' with
  | nil => simp [setMilestoneByOrder] at h
  | cons m rest ih =>
    simp only [setMilestoneByOrder] at h
    split at h
    · cases h; simp
    · cases hrec : setMilestoneByOrder o s rest with
      | none => rw [hrec] at h; cases h
      | some rest' =>
        rw [hrec] at h
        cases h
        simp [ih hrec]

/-- The update loop targets the first position whose milestone carries
the requested `order`, independent of the position's index. -/
theorem setMilestoneByOrder_eq_set {o : Nat} {s : String}
    {l l' : List Milestone} (h : setMilestoneByOrder o s l = some l') :
    ∃ i, i < l.length ∧ (∀ j, j < i → (l.getD j mdef).order ≠ o) ∧
      (l.getD i mdef).order = o ∧
      l' = l.set i { l.getD i mdef with status := s } := by
  induction l generalizing l' with
  | nil => simp [setMilestoneByOrder] at h
  | cons m rest ih =>
    simp only [setMilestoneByOrder] at h
    split at h
    · cases h
      refine ⟨0, by simp, by omega, ?_, ?_⟩
      · simpa using (by assumption : (m.order == o) = true)
      · simp
    · cases hrec : setMilestoneByOrder o s rest with
      | none => rw [hrec] at h; cases h
      | some rest' =>
        rw [hrec] at h
        cases h
        rcases ih hrec with ⟨i, hi, hbefore, hord, hset⟩
        refine ⟨i + 1, by simpa using hi, ?_, by simpa using hord, by simp [hset]⟩
        intro j hj
        cases j with
        | zero =>
          simpa using (by simpa using (by assumption : ¬ (m.order == o) = true) :
            m.order ≠ o)
        | succ j' => simpa using hbefore j' (by omega)

/-! ## Success-elimination lemmas -/

/-- A successful guide-request accept passed every guard and produced
exactly the `guideAcceptState` writes. -/
theorem respond_guide_accept_ok {request_id : String} {rd : RespondToGuideRequest}
    {user : User} {now : Nat} {db db' : DB} {res : GuideRequest}
    (hacc : rd.accept = true)
    (h : respond_to_guide_request request_id rd user now db = .ok (db', res)) :
    ∃ gr project,
      db.guide_requests.find? (fun r => r.id == request_id) = some gr ∧
      gr.ownerId = user.id ∧ gr.status = "pending" ∧
      db.projects.find? (fun p => p.id == gr.projectId) = some project ∧
      truthyOptStr project.guideId = false ∧
      db' = guideAcceptState request_id gr now db ∧
      db'.guide_requests.find? (fun r => r.id == request_id) = some res := by
  unfold respond_to_guide_request at h
  rw [hacc] at h
  simp only [Bool.not_true, Bool.false_eq_true, if_false] at h
  split at h
  · cases h
  next hvalid =>
  split at h
  · cases h
  next gr hfind =>
  split at h
  · cases h
  next howner =>
  split at h
  · cases h
  next hpend =>
  split at h
  · cases h
  next hpidvalid =>
  split at h
  · cases h
  next project hproj =>
  split at h
  · cases h
  next hguide =>
  split at h
  next updated hupd =>
    cases h
    exact ⟨gr, project, hfind, by simpa using howner, by simpa using hpend,
      hproj, by simpa using hguide, rfl, hupd⟩
  · cases h

/-- A successful invitation response passed every guard; accepting
re-validated the cap against the current team and produced exactly the
`inviteAcceptState` writes, declining only touched the invitation. -/
theorem respond_invite_ok {invitation_id : String} {rd : RespondToInviteRequest}
    {user : User} {now : Nat} {db db' : DB} {res : TeamInvitation}
    (h : respond_to_team_invite invitation_id rd user now db = .ok (db', res)) :
    ∃ inv project,
      isValidObjectId invitation_id = true ∧
      db.team_invitations.find? (fun i => i.id == invitation_id) = some inv ∧
      inv.inviteeId = user.id ∧ inv.status = "pending" ∧
      db.projects.find? (fun p => p.id == inv.projectId) = some project ∧
      ((rd.accept = true ∧ 1 + project.teamMembers.length < 4 ∧
        db' = inviteAcceptState invitation_id inv.projectId user.id now db) ∨
       (rd.accept = false ∧ db' = inviteDeclineState invitation_id now db)) ∧
      db'.team_invitations.find? (fun i => i.id == invitation_id) = some res := by
  unfold respond_to_team_invite at h
  simp only [] at h
  split at h
  · cases h
  next hvalid =>
  split at h
  · cases h
  next inv hfind =>
  split at h
  · cases h
  next hinvitee =>
  split at h
  · cases h
  next hpend =>
  split at h
  · cases h
  next hpidvalid =>
  split at h
  · cases h
  next project hproj =>
  split at h
  next haccept =>
    split at h
    · cases h
    next hsize =>
    split at h
    next updated hupd =>
      cases h
      exact ⟨inv, project, by simpa using hvalid, hfind, by simpa using hinvitee,
        by simpa using hpend, hproj, Or.inl ⟨haccept, by omega, rfl⟩, hupd⟩
    · cases h
  next haccept =>
    split at h
    next updated hupd =>
      cases h
      exact ⟨inv, project, by simpa using hvalid, hfind, by simpa using hinvitee,
        by simpa using hpend, hproj, Or.inr ⟨by simpa using haccept, rfl⟩, hupd⟩
    · cases h

/-- A successful milestone update passed every guard and produced
exactly the `milestoneUpdateState` writes. -/
theorem update_milestone_ok {project_id : String} {md : UpdateMilestoneRequest}
    {user : User} {now : Nat} {db db' : DB} {up : Project}
    (h : update_milestone project_id md user now db = .ok (db', up)) :
    ∃ project milestones',
      db.projects.find? (fun p => p.id == project_id) = some project ∧
      setMilestoneByOrder md.milestoneOrder md.status project.milestones
        = some milestones' ∧
      db' = milestoneUpdateState project_id milestones' now db ∧
      db'.projects.find? (fun p => p.id == project_id) = some up := by
  unfold update_milestone at h
  simp only [] at h
  split at h
  · cases h
  next hvalid =>
  split at h
  · cases h
  next project hproj =>
  split at h
  · cases h
  next hperm =>
  split at h
  · cases h
  next hstudent =>
  split at h
  · cases h
  next hstatus =>
  split at h
  · cases h
  next milestones' hset =>
  split at h
  next up' hup =>
    cases h
    exact ⟨project, milestones', hproj, hset, rfl, hup⟩
  · cases h

/-! ## Facts about the record-update functions -/

theorem declineOther_id (pid request_id : String) (now : Nat) (r : GuideRequest) :
    (declineOther pid request_id now r).id = r.id := by
  unfold declineOther; split <;> rfl

theorem declineOther_projectId (pid request_id : String) (now : Nat)
    (r : GuideRequest) :
    (declineOther pid request_id now r).projectId = r.projectId := by
  unfold declineOther; split <;> rfl

theorem declineOther_of_not_pending {pid request_id : String} {now : Nat}
    {r : GuideRequest} (hr : r.status ≠ "pending") :
    declineOther pid request_id now r = r := by
  unfold declineOther
  rw [if_neg]
  simp [hr]

/-- Identification of the record a successful accept returns: it is the
found request marked accepted (the `update_many` filter excludes the
responded `_id`, so the re-fetch sees it unchanged). -/
theorem respond_guide_accept_spec {request_id : String}
    {rd : RespondToGuideRequest} {user : User} {now : Nat} {db db' : DB}
    {res : GuideRequest}
    (hnodup : (db.guide_requests.map GuideRequest.id).Nodup)
    (hacc : rd.accept = true)
    (h : respond_to_guide_request request_id rd user now db = .ok (db', res)) :
    ∃ gr project,
      db.guide_requests.find? (fun r => r.id == request_id) = some gr ∧
      gr.ownerId = user.id ∧ gr.status = "pending" ∧
      db.projects.find? (fun p => p.id == gr.projectId) = some project ∧
      truthyOptStr project.guideId = false ∧
      db' = guideAcceptState request_id gr now db ∧
      res = markAccepted now gr := by
  obtain ⟨gr, project, hfind, howner, hpend, hproj, hguide, hdb', hres⟩ :=
    respond_guide_accept_ok hacc h
  refine ⟨gr, project, hfind, howner, hpend, hproj, hguide, hdb', ?_⟩
  subst hdb'
  have hgrmem : gr ∈ db.guide_requests := List.mem_of_find?_eq_some hfind
  have hgrid : gr.id = request_id := by simpa using List.find?_some hfind
  have hresmem : res ∈ (guideAcceptState request_id gr now db).guide_requests :=
    List.mem_of_find?_eq_some hres
  have hresid : res.id = request_id := by simpa using List.find?_some hres
  simp only [guideAcceptState] at hresmem
  obtain ⟨r1, hr1mem, hr1eq⟩ := List.mem_map.mp hresmem
  have hr1id : r1.id = request_id := by
    rw [← hresid, ← hr1eq, declineOther_id]
  obtain ⟨y, hymem, hyid, hr1y⟩ :=
    updateFirst_key_unique GuideRequest.id hnodup hr1mem hr1id
  have hygr : gr = y :=
    (eq_of_mem_key_nodup hnodup hymem hgrmem (by rw [hyid, hgrid])).symm
  subst hygr
  have hr1acc : r1.status = "accepted" := by rw [hr1y]; rfl
  rw [← hr1eq, declineOther_of_not_pending (by rw [hr1acc]; decide), hr1y]

/-! ## Claim theorems -/

/-- C1: after a successful accept of a pending GuideRequest by the
project owner, the responded request is `accepted`, every other request
for the same project that was `pending` is `declined` with reason
"Another guide was accepted", and no request for that project other
than the accepted one remains `pending`. -/
theorem accept_declines_all_other_pending
    (request_id : String) (rd : RespondToGuideRequest) (user : User) (now : Nat)
    (db db' : DB) (res : GuideRequest)
    (hnodup : (db.guide_requests.map GuideRequest.id).Nodup)
    (hacc : rd.accept = true)
    (h : respond_to_guide_request request_id rd user now db = .ok (db', res)) :
    res.id = request_id ∧ res.status = "accepted" ∧ res ∈ db'.guide_requests ∧
    (∀ r ∈ db.guide_requests, r.projectId = res.projectId → r.id ≠ request_id →
      r.status = "pending" →
      ∃ r' ∈ db'.guide_requests, r'.id = r.id ∧ r'.status = "declined" ∧
        r'.declineReason = some "Another guide was accepted") ∧
    (∀ r' ∈ db'.guide_requests, r'.projectId = res.projectId →
      r'.status ≠ "pending") := by
  obtain ⟨gr, project, hfind, howner, hpend, hproj, hguide, hdb', hres⟩ :=
    respond_guide_accept_ok hacc h
  subst hdb'
  have hgrmem : gr ∈ db.guide_requests := List.mem_of_find?_eq_some hfind
  have hgrid : gr.id = request_id := by simpa using List.find?_some hfind
  have hresmem : res ∈ (guideAcceptState request_id gr now db).guide_requests :=
    List.mem_of_find?_eq_some hres
  have hresid : res.id = request_id := by simpa using List.find?_some hres
  -- res is the (unchanged-by-update_many) accepted image of gr
  simp only [guideAcceptState] at hresmem
  obtain ⟨r1, hr1mem, hr1eq⟩ := List.mem_map.mp hresmem
  have hr1id : r1.id = request_id := by
    rw [← hresid, ← hr1eq, declineOther_id]
  obtain ⟨y, hymem, hyid, hr1y⟩ :=
    updateFirst_key_unique GuideRequest.id hnodup hr1mem hr1id
  have hygr : gr = y :=
    (eq_of_mem_key_nodup hnodup hymem hgrmem (by rw [hyid, hgrid])).symm
  subst hygr
  have hr1acc : r1.status = "accepted" := by rw [hr1y]; rfl
  have hresr1 : res = r1 := by
    rw [← hr1eq, declineOther_of_not_pending (by rw [hr1acc]; decide)]
  have hrespid : res.projectId = gr.projectId := by
    rw [hresr1, hr1y]; rfl
  refine ⟨hresid, by rw [hresr1, hr1acc], List.mem_of_find?_eq_some hres, ?_, ?_⟩
  · intro r hrmem hrpid hrid hrpend
    have hrc : (r.id == request_id) = false := by simp [hrid]
    have hr1' : r ∈ updateFirst (fun x => x.id == request_id) (markAccepted now)
        db.guide_requests := mem_updateFirst_of_not hrmem hrc
    refine ⟨declineOther gr.projectId request_id now r, ?_, ?_, ?_, ?_⟩
    · simp only [guideAcceptState]
      exact List.mem_map_of_mem _ hr1'
    · exact declineOther_id _ _ _ _
    · unfold declineOther
      rw [if_pos (by simp [hrpend, hrid, hrpid.trans hrespid])]
    · unfold declineOther
      rw [if_pos (by simp [hrpend, hrid, hrpid.trans hrespid])]
  · intro r' hr'mem hr'pid hr'pend
    simp only [guideAcceptState] at hr'mem
    obtain ⟨r2, hr2mem, hr2eq⟩ := List.mem_map.mp hr'mem
    by_cases hcond : (r2.projectId == gr.projectId && r2.status == "pending"
        && r2.id != request_id) = true
    · have : r'.status = "declined" := by
        rw [← hr2eq]; unfold declineOther; rw [if_pos hcond]
      rw [this] at hr'pend
      exact absurd hr'pend (by decide)
    · have hr'r2 : r' = r2 := by
        rw [← hr2eq]; unfold declineOther; rw [if_neg hcond]
      rw [hr'r2] at hr'pid hr'pend
      have hc1 : (r2.projectId == gr.projectId) = true := by
        simp [hr'pid.trans hrespid]
      have hc2 : (r2.status == "pending") = true := by simp [hr'pend]
      simp only [hc1, hc2, Bool.true_and] at hcond
      have hr2id : r2.id = request_id := by simpa using hcond
      obtain ⟨y2, hy2mem, hy2id, hr2y⟩ :=
        updateFirst_key_unique GuideRequest.id hnodup hr2mem hr2id
      have hr2acc : r2.status = "accepted" := by rw [hr2y]; rfl
      rw [hr2acc] at hr'pend
      exact absurd hr'pend (by decide)

/-- C2: after a successful accept of a pending GuideRequest, the project
has `guideId` equal to the request's `teacherId`, a guide name set, the
request's proposed deadline, status `in_progress`, and exactly the
`not_started` milestones advanced to `in_progress` while the others keep
their previous status. -/
theorem accept_configures_project
    (request_id : String) (rd : RespondToGuideRequest) (user : User) (now : Nat)
    (db db' : DB) (res : GuideRequest) (p p' : Project)
    (hnodupR : (db.guide_requests.map GuideRequest.id).Nodup)
    (hnodupP : (db.projects.map Project.id).Nodup)
    (hacc : rd.accept = true)
    (h : respond_to_guide_request request_id rd user now db = .ok (db', res))
    (hp : p ∈ db.projects) (hpid : p.id = res.projectId)
    (hp' : p' ∈ db'.projects) (hp'id : p'.id = res.projectId) :
    p'.guideId = some res.teacherId ∧
    p'.guideName.isSome = true ∧
    p'.deadline = res.deadline ∧
    p'.status = "in_progress" ∧
    p'.milestones = p.milestones.map (fun m =>
      if m.status == "not_started" then { m with status := "in_progress" }
      else m) := by
  obtain ⟨gr, project, hfind, howner, hpend, hproj, hguide, hdb', hresgr⟩ :=
    respond_guide_accept_spec hnodupR hacc h
  subst hdb'
  have hrespid : res.projectId = gr.projectId := by rw [hresgr]; rfl
  have hresteacher : res.teacherId = gr.teacherId := by rw [hresgr]; rfl
  have hresdl : res.deadline = gr.deadline := by rw [hresgr]; rfl
  have hp'mem : p' ∈ updateFirst (fun q => q.id == gr.projectId)
      (applyGuideAccept gr.teacherId (guideNameFor db gr) gr.deadline now)
      db.projects := by
    simpa only [guideAcceptState] using hp'
  obtain ⟨y, hymem, hyid, hp'y⟩ :=
    updateFirst_key_unique Project.id hnodupP hp'mem
      (hp'id.trans hrespid)
  have hpy : p = y :=
    eq_of_mem_key_nodup hnodupP hp hymem (by rw [hpid.trans hrespid, hyid])
  subst hpy
  rw [hp'y]
  exact ⟨by rw [hresteacher]; rfl, rfl, by rw [hresdl]; rfl, rfl, rfl⟩

/-- C3: after a successful milestone update on a project with its 4
milestones, the stored progress is 100 times the completed-milestone
count divided by 4 with integer truncation, and the milestone changed is
the first one whose `order` field matches the request, not an array
position. -/
theorem milestone_update_progress
    (project_id : String) (md : UpdateMilestoneRequest) (user : User) (now : Nat)
    (db db' : DB) (up p : Project)
    (hnodupP : (db.projects.map Project.id).Nodup)
    (h : update_milestone project_id md user now db = .ok (db', up))
    (hp : p ∈ db.projects) (hpid : p.id = project_id)
    (hlen : p.milestones.length = 4) :
    up.progress =
      (100 * (up.milestones.filter (fun m => m.status == "completed")).length) / 4 ∧
    (∃ i, i < p.milestones.length ∧
      (∀ j, j < i → (p.milestones.getD j mdef).order ≠ md.milestoneOrder) ∧
      (p.milestones.getD i mdef).order = md.milestoneOrder ∧
      up.milestones = p.milestones.set i
        { p.milestones.getD i mdef with status := md.status }) ∧
    (∀ p'' ∈ db'.projects, p''.id = project_id → p'' = up) := by
  obtain ⟨project, milestones', hproj, hset, hdb', hup⟩ := update_milestone_ok h
  subst hdb'
  have hprojmem : project ∈ db.projects := List.mem_of_find?_eq_some hproj
  have hprojid : project.id = project_id := by simpa using List.find?_some hproj
  have hpproj : p = project :=
    eq_of_mem_key_nodup hnodupP hp hprojmem (by rw [hpid, hprojid])
  subst hpproj
  have hupmem : up ∈ (milestoneUpdateState project_id milestones' now db).projects :=
    List.mem_of_find?_eq_some hup
  have hupid : up.id = project_id := by simpa using List.find?_some hup
  simp only [milestoneUpdateState] at hupmem
  obtain ⟨y, hymem, hyid, hupy⟩ :=
    updateFirst_key_unique Project.id hnodupP hupmem hupid
  have hyp : p = y := eq_of_mem_key_nodup hnodupP hp hymem (by rw [hpid, hyid])
  subst hyp
  have hlen' : milestones'.length = 4 := by
    rw [setMilestoneByOrder_length hset, hlen]
  refine ⟨?_, ?_, ?_⟩
  · rw [hupy]
    simp only [pyProgress, hlen', Nat.mul_comm]
  · have hupms : up.milestones = milestones' := by rw [hupy]
    rw [hupms]
    exact setMilestoneByOrder_eq_set hset
  · intro p'' hp''mem hp''id
    simp only [milestoneUpdateState] at hp''mem
    obtain ⟨y2, hy2mem, hy2id, hp''y2⟩ :=
      updateFirst_key_unique Project.id hnodupP hp''mem hp''id
    have hy2p : p = y2 :=
      eq_of_mem_key_nodup hnodupP hp hy2mem (by rw [hpid, hy2id])
    rw [hp''y2, ← hy2p, ← hupy]

/-- C4: the team-size cap. Inviting fails BadRequest when owner plus
members already number 4; accepting an invitation re-checks the cap
against the project's current state and fails BadRequest when full;
otherwise the accept appends exactly one member with `role = None` and
`isLeader = False`, keeping `1 + len(teamMembers) ≤ 4`. -/
theorem team_size_cap :
    (∀ (project_id inviteeEmail : String) (user : User) (now : Nat)
        (newId : String) (db : DB) (project : Project) (invitee : User),
      isValidObjectId project_id = true →
      db.projects.find? (fun p => p.id == project_id) = some project →
      project.ownerId = user.id →
      db.users.find? (fun u => u.email == pyLower inviteeEmail) = some invitee →
      invitee.role = "Student" →
      invitee.department = project.department →
      1 + project.teamMembers.length = 4 →
      send_team_invite project_id inviteeEmail user now newId db =
        .error (.badRequest "Team is full (max 4 members)")) ∧
    (∀ (invitation_id : String) (rd : RespondToInviteRequest) (user : User)
        (now : Nat) (db : DB) (inv : TeamInvitation) (project : Project),
      isValidObjectId invitation_id = true →
      db.team_invitations.find? (fun i => i.id == invitation_id) = some inv →
      inv.inviteeId = user.id →
      inv.status = "pending" →
      isValidObjectId inv.projectId = true →
      db.projects.find? (fun p => p.id == inv.projectId) = some project →
      rd.accept = true →
      1 + project.teamMembers.length ≥ 4 →
      respond_to_team_invite invitation_id rd user now db =
        .error (.badRequest "Team is now full")) ∧
    (∀ (invitation_id : String) (rd : RespondToInviteRequest) (user : User)
        (now : Nat) (db db' : DB) (res inv : TeamInvitation) (p p' : Project),
      (db.projects.map Project.id).Nodup →
      rd.accept = true →
      respond_to_team_invite invitation_id rd user now db = .ok (db', res) →
      db.team_invitations.find? (fun i => i.id == invitation_id) = some inv →
      p ∈ db.projects → p.id = inv.projectId →
      p' ∈ db'.projects → p'.id = inv.projectId →
      p'.teamMembers = p.teamMembers ++
        [{ userId := user.id, role := none, isLeader := false,
           joinedAt := now, fullName := none }] ∧
      1 + p'.teamMembers.length ≤ 4) := by
  refine ⟨?_, ?_, ?_⟩
  · intro project_id inviteeEmail user now newId db project invitee hv hproj
      howner hinv hrole hdept hsize
    unfold send_team_invite
    rw [hv]
    simp only [Bool.not_true, Bool.false_eq_true, if_false, hproj, hinv]
    rw [if_neg (by simp [howner]), if_neg (by simp [hrole]),
        if_neg (by simp [hdept]), if_pos (by omega)]
  · intro invitation_id rd user now db inv project hv hfind hinvitee hpend
      hpidv hproj hacc hsize
    unfold respond_to_team_invite
    rw [hv]
    simp only [Bool.not_true, Bool.false_eq_true, if_false, hfind, hproj]
    rw [if_neg (by simp [hinvitee]), if_neg (by simp [hpend])]
    rw [hpidv]
    simp only [Bool.not_true, Bool.false_eq_true, if_false]
    rw [if_pos hacc, if_pos hsize]
  · intro invitation_id rd user now db db' res inv p p' hnodupP hacc h hfind
      hp hpid hp' hp'id
    obtain ⟨inv₀, project, hvalid₀, hfind₀, hinvitee, hpend, hproj, hbranch, hres⟩ :=
      respond_invite_ok h
    have hinveq : inv = inv₀ := by
      rw [hfind₀] at hfind
      exact (Option.some_inj.mp hfind).symm
    subst hinveq
    rcases hbranch with ⟨_, hsize, hdb'⟩ | ⟨hfalse, _⟩
    · subst hdb'
      have hprojmem : project ∈ db.projects := List.mem_of_find?_eq_some hproj
      have hprojid : project.id = inv.projectId := by
        simpa using List.find?_some hproj
      have hpproj : p = project :=
        eq_of_mem_key_nodup hnodupP hp hprojmem (by rw [hpid, hprojid])
      subst hpproj
      have hp'mem : p' ∈ updateFirst (fun q => q.id == inv.projectId)
          (fun q => { q with
            teamMembers := q.teamMembers ++
              [{ userId := user.id, role := none, isLeader := false,
                 joinedAt := now, fullName := none }],
            updatedAt := now }) db.projects := by
        simpa only [inviteAcceptState] using hp'
      obtain ⟨y, hymem, hyid, hp'y⟩ :=
        updateFirst_key_unique Project.id hnodupP hp'mem hp'id
      have hyp : p = y := eq_of_mem_key_nodup hnodupP hp hymem (by rw [hpid, hyid])
      subst hyp
      refine ⟨by rw [hp'y], ?_⟩
      rw [hp'y]
      simp only [List.length_append, List.length_cons, List.length_nil]
      omega
    · rw [hfalse] at hacc
      cases hacc

/-- C6: responding to an invitation that is no longer `pending` fails
BadRequest before any write; in particular, after a successful response
a second RespondToInvitation by the invitee on the same invitation fails
BadRequest, leaving the first call's outcome in place. -/
theorem respond_invitation_second_call_fails :
    (∀ (invitation_id : String) (rd : RespondToInviteRequest) (user : User)
        (now : Nat) (db : DB) (inv : TeamInvitation),
      isValidObjectId invitation_id = true →
      db.team_invitations.find? (fun i => i.id == invitation_id) = some inv →
      inv.inviteeId = user.id →
      inv.status ≠ "pending" →
      respond_to_team_invite invitation_id rd user now db =
        .error (.badRequest "Invitation already responded to")) ∧
    (∀ (invitation_id : String) (rd rd2 : RespondToInviteRequest) (user : User)
        (now now2 : Nat) (db db1 : DB) (res : TeamInvitation),
      respond_to_team_invite invitation_id rd user now db = .ok (db1, res) →
      respond_to_team_invite invitation_id rd2 user now2 db1 =
        .error (.badRequest "Invitation already responded to")) := by
  have key : ∀ (invitation_id : String) (rd : RespondToInviteRequest)
      (user : User) (now : Nat) (db : DB) (inv : TeamInvitation),
      isValidObjectId invitation_id = true →
      db.team_invitations.find? (fun i => i.id == invitation_id) = some inv →
      inv.inviteeId = user.id →
      inv.status ≠ "pending" →
      respond_to_team_invite invitation_id rd user now db =
        .error (.badRequest "Invitation already responded to") := by
    intro invitation_id rd user now db inv hv hfind hinvitee hpend
    unfold respond_to_team_invite
    rw [hv]
    simp only [Bool.not_true, Bool.false_eq_true, if_false, hfind]
    rw [if_neg (by simp [hinvitee]), if_pos (by simp [hpend])]
  refine ⟨key, ?_⟩
  intro invitation_id rd rd2 user now now2 db db1 res h
  obtain ⟨inv₀, project, hvalid₀, hfind₀, hinvitee, hpend, hproj, hbranch, hres⟩ :=
    respond_invite_ok h
  rcases hbranch with ⟨hacc, hsize, hdb1⟩ | ⟨hdec, hdb1⟩
  · have hres' := find?_updateFirst
      (f := fun i : TeamInvitation =>
        { i with status := "accepted", respondedAt := some now }) hfind₀
      (by simpa using List.find?_some hfind₀)
    have hresform : res = { inv₀ with status := "accepted", respondedAt := some now } := by
      have := hres
      rw [hdb1] at this
      simp only [inviteAcceptState] at this
      rw [hres'] at this
      exact (Option.some_inj.mp this).symm
    refine key invitation_id rd2 user now2 db1 res hvalid₀ hres ?_ ?_
    · rw [hresform, hinvitee]
    · rw [hresform]
      intro hcontra
      have hlit : "accepted" = "pending" := hcontra
      exact absurd hlit (by decide)
  · have hres' := find?_updateFirst
      (f := fun i : TeamInvitation =>
        { i with status := "declined", respondedAt := some now }) hfind₀
      (by simpa using List.find?_some hfind₀)
    have hresform : res = { inv₀ with status := "declined", respondedAt := some now } := by
      have := hres
      rw [hdb1] at this
      simp only [inviteDeclineState] at this
      rw [hres'] at this
      exact (Option.some_inj.mp this).symm
    refine key invitation_id rd2 user now2 db1 res hvalid₀ hres ?_ ?_
    · rw [hresform, hinvitee]
    · rw [hresform]
      intro hcontra
      have hlit : "declined" = "pending" := hcontra
      exact absurd hlit (by decide)

/-- C5 (code defect): for a Teacher, a guideless same-department project
and no pending request from this teacher, RequestToGuide does not create
a pending request — it crashes with an internal error, because
`models.SendGuideRequestRequest` declares no `deadline` field while
main.py:1166 reads `request_data.deadline`. -/
theorem request_to_guide_crashes
    (project_id : String) (rd : SendGuideRequestRequest) (user : User)
    (now : Nat) (db : DB) (project : Project)
    (hrole : user.role = "Teacher")
    (hv : isValidObjectId project_id = true)
    (hproj : db.projects.find? (fun p => p.id == project_id) = some project)
    (hnoguide : truthyOptStr project.guideId = false)
    (hdept : project.department = user.department)
    (hnopending : db.guide_requests.find? (fun r =>
        r.projectId == project_id && r.teacherId == user.id
        && r.status == "pending") = none) :
    send_guide_request project_id rd user now db =
      .error (.internalError
        "AttributeError: SendGuideRequestRequest object has no attribute deadline") := by
  unfold send_guide_request
  rw [if_neg (by simp [hrole]), hv]
  simp only [Bool.not_true, Bool.false_eq_true, if_false, hproj, hnopending]
  rw [if_neg (by simp [hnoguide]), if_neg (by simp [hdept])]

/-- After the milestone write, the re-fetch of the project by id still
succeeds. -/
theorem milestoneUpdateState_find? (milestones' : List Milestone) (now : Nat)
    {project_id : String} {db : DB} {project : Project}
    (hproj : db.projects.find? (fun p => p.id == project_id) = some project) :
    ∃ up, (milestoneUpdateState project_id milestones' now db).projects.find?
      (fun p => p.id == project_id) = some up := by
  simp only [milestoneUpdateState]
  exact ⟨_, find?_updateFirst hproj (by simpa using List.find?_some hproj)⟩

/-- C7: a Student — even the owner, a member, or (per the record) the
guide — may not mark a milestone `completed` (Forbidden before any
write), while the project's Teacher guide succeeds with the same call. -/
theorem student_cannot_complete_milestone :
    (∀ (project_id : String) (md : UpdateMilestoneRequest) (user : User)
        (now : Nat) (db : DB) (project : Project),
      isValidObjectId project_id = true →
      db.projects.find? (fun p => p.id == project_id) = some project →
      user.role = "Student" →
      (project.ownerId = user.id ∨
        project.teamMembers.any (fun m => m.userId == user.id) = true ∨
        project.guideId = some user.id) →
      md.status = "completed" →
      update_milestone project_id md user now db =
        .error (.forbidden "Only the project guide can mark a phase as completed.")) ∧
    (∀ (project_id : String) (md : UpdateMilestoneRequest) (guide : User)
        (now : Nat) (db : DB) (project : Project) (milestones' : List Milestone),
      isValidObjectId project_id = true →
      db.projects.find? (fun p => p.id == project_id) = some project →
      guide.role = "Teacher" →
      project.guideId = some guide.id →
      md.status = "completed" →
      setMilestoneByOrder md.milestoneOrder md.status project.milestones
        = some milestones' →
      ∃ db' up, update_milestone project_id md guide now db = .ok (db', up)) := by
  constructor
  · intro project_id md user now db project hv hproj hrole haccess hstat
    unfold update_milestone
    rw [hv]
    simp only [Bool.not_true, Bool.false_eq_true, if_false, hproj]
    have hacc' : ((project.ownerId == user.id ||
        project.teamMembers.any (fun m => m.userId == user.id)) ||
        project.guideId == some user.id) = true := by
      rcases haccess with h1 | h1 | h1
      · simp [h1]
      · simp [h1]
      · simp [h1]
    rw [if_neg (by simp [hacc']), if_pos (by simp [hrole, hstat])]
  · intro project_id md guide now db project milestones' hv hproj hrole hguide
      hstat hset
    obtain ⟨up, hfind2⟩ := milestoneUpdateState_find? milestones' now hproj
    refine ⟨milestoneUpdateState project_id milestones' now db, up, ?_⟩
    unfold update_milestone
    rw [hv]
    simp only [Bool.not_true, Bool.false_eq_true, if_false, hproj]
    rw [if_neg (by simp [hguide]), if_neg (by simp [hrole]),
        if_neg (by simp [hstat])]
    simp only [hset]
    rw [hfind2]

/-- A caller used for concrete evaluations. -/
def cexUser : User :=
  { id := "111111111111111111111111", fullName := "Alice Owner",
    email := "alice@example.com", role := "Student", department := "CS" }

/-- An empty store used for concrete evaluations. -/
def cexDB : DB := { users := [], projects := [], team_invitations := [],
                    guide_requests := [] }

/-- C8 counterexample: on a malformed project id, GetProject returns
BadRequest ("Invalid project ID format"), not NotFound — refuting the
claim that a malformed id also yields NotFound. -/
theorem get_project_malformed_is_badRequest :
    get_project "xyz" cexUser cexDB =
      .error (.badRequest "Invalid project ID format") ∧
    resultIsNotFound (get_project "xyz" cexUser cexDB) = false :=
  ⟨rfl, rfl⟩

/-- C8 (amended): GetProject fails BadRequest when the id is malformed
and NotFound when the id is well-formed but no record matches. -/
theorem get_project_error_categories
    (project_id : String) (user : User) (db : DB) :
    (isValidObjectId project_id = false →
      get_project project_id user db =
        .error (.badRequest "Invalid project ID format")) ∧
    (isValidObjectId project_id = true →
      db.projects.find? (fun p => p.id == project_id) = none →
      get_project project_id user db =
        .error (.notFound "Project not found")) := by
  constructor
  · intro hv
    unfold get_project
    rw [hv]
    simp only [Bool.not_false, if_true]
  · intro hv hnone
    unfold get_project
    rw [hv]
    simp only [Bool.not_true, Bool.false_eq_true, if_false, hnone]

/-- C9: declining a pending GuideRequest owned by the caller with a
non-blank reason succeeds and never consults the projects collection —
even when the referenced project no longer exists — while accepting the
same request fails NotFound on the missing project. -/
theorem decline_ignores_missing_project
    (request_id reason : String) (user : User) (now : Nat) (db : DB)
    (gr : GuideRequest)
    (hv : isValidObjectId request_id = true)
    (hfind : db.guide_requests.find? (fun r => r.id == request_id) = some gr)
    (howner : gr.ownerId = user.id)
    (hpend : gr.status = "pending")
    (hmissing : db.projects.find? (fun p => p.id == gr.projectId) = none)
    (hreason : pyStrip reason ≠ "") :
    (respond_to_guide_request request_id ⟨false, some reason⟩ user now db =
      .ok (guideDeclineState request_id reason now db,
        { gr with status := "declined", declineReason := some reason,
                  respondedAt := some now })) ∧
    (isValidObjectId gr.projectId = true →
      respond_to_guide_request request_id ⟨true, some reason⟩ user now db =
        .error (.notFound "Project no longer exists")) := by
  constructor
  · have hfind2 := find?_updateFirst
      (f := fun r : GuideRequest =>
        { r with status := "declined", declineReason := some reason,
                 respondedAt := some now }) hfind
      (by simpa using List.find?_some hfind)
    unfold respond_to_guide_request
    rw [hv]
    simp only [Bool.not_true, Bool.false_eq_true, if_false, hfind]
    rw [if_neg (by simp [howner]), if_neg (by simp [hpend])]
    simp only [Bool.not_false, if_true]
    rw [if_neg (by simpa using hreason)]
    simp only [guideDeclineState]
    rw [hfind2]
  · intro hpidv
    unfold respond_to_guide_request
    rw [hv]
    simp only [Bool.not_true, Bool.false_eq_true, if_false, hfind]
    rw [if_neg (by simp [howner]), if_neg (by simp [hpend])]
    rw [hpidv]
    simp only [Bool.not_true, Bool.false_eq_true, if_false, hmissing]

/-- C10: for a caller whose role is neither Student nor Teacher (e.g.
Admin) and no role filter, ListProjects applies no ownership, membership
or guide restriction: its output is exactly the store restricted by the
optional status filter, ordered most-recently-updated first. -/
theorem admin_list_projects_unrestricted
    (sf : Option String) (user : User) (db : DB)
    (h1 : user.role ≠ "Student") (h2 : user.role ≠ "Teacher") :
    (∀ p, p ∈ list_projects sf none user db ↔
      p ∈ db.projects ∧ (∀ s, sf = some s → s ≠ "" → p.status = s)) ∧
    (list_projects sf none user db).Pairwise
      (fun a b => b.updatedAt ≤ a.updatedAt) := by
  have hrole1 : (user.role == "Student") = false := by simp [h1]
  have hrole2 : (user.role == "Teacher") = false := by simp [h2]
  constructor
  · intro p
    unfold list_projects
    simp only [hrole1, hrole2, Bool.false_eq_true, if_false]
    cases sf with
    | none => simp [mem_sortByUpdatedDesc]
    | some s =>
      by_cases hs : s = ""
      · subst hs
        simp [mem_sortByUpdatedDesc]
      · simp only [bne_iff_ne, ne_eq, hs, not_false_eq_true, if_true,
          mem_sortByUpdatedDesc, List.mem_filter, Option.some.injEq]
        constructor
        · rintro ⟨hmem, hst⟩
          exact ⟨hmem, fun s' hs' _ => by
            subst hs'
            simpa using hst⟩
        · rintro ⟨hmem, hst⟩
          exact ⟨hmem, by simp [hst s rfl hs]⟩
  · unfold list_projects
    simp only [hrole1, hrole2, Bool.false_eq_true, if_false]
    exact pairwise_sortByUpdatedDesc _

/-! ## Concrete fixtures for witness instantiations -/

/-- A student project owner. -/
def wOwner : User :=
  { id := "111111111111111111111111", fullName := "Alice Owner",
    email := "alice@example.com", role := "Student", department := "CS" }

/-- A teacher who requests to guide. -/
def wTeacher : User :=
  { id := "222222222222222222222222", fullName := "Tina Teacher",
    email := "tina@example.com", role := "Teacher", department := "CS" }

/-- A second teacher with a competing request. -/
def wTeacher2 : User :=
  { id := "333333333333333333333333", fullName := "Tom Teacher",
    email := "tom@example.com", role := "Teacher", department := "CS" }

/-- An invited student. -/
def wBob : User :=
  { id := "444444444444444444444444", fullName := "Bob Member",
    email := "bob@example.com", role := "Student", department := "CS" }

/-- An administrator. -/
def wAdmin : User :=
  { id := "555555555555555555555555", fullName := "Ann Admin",
    email := "ann@example.com", role := "Admin", department := "CS" }

/-- One more student, invited when the team is already full. -/
def wEve : User :=
  { id := "666666666666666666666666", fullName := "Eve Extra",
    email := "eve@example.com", role := "Student", department := "CS" }

def wPid : String := "aaaaaaaaaaaaaaaaaaaaaaaa"
def wRid1 : String := "bbbbbbbbbbbbbbbbbbbbbbbb"
def wRid2 : String := "cccccccccccccccccccccccc"
def wIid : String := "dddddddddddddddddddddddd"
def wNewId : String := "eeeeeeeeeeeeeeeeeeeeeeee"

/-- The four fixed milestones, partially advanced. -/
def wMs : List Milestone :=
  [{ name := "Abstract Creation", status := "completed", order := 1 },
   { name := "Tables and Design", status := "in_progress", order := 2 },
   { name := "Project Development", status := "not_started", order := 3 },
   { name := "Project Report", status := "not_started", order := 4 }]

/-- A guideless project owned by `wOwner`. -/
def wProj : Project :=
  { id := wPid, name := "Proj", description := "A sample project",
    courseCode := none, ownerId := wOwner.id, ownerName := wOwner.fullName,
    department := "CS", status := "not_started", teamMembers := [],
    guideId := none, guideName := none, milestones := wMs, progress := 25,
    deadline := none, createdAt := 1, updatedAt := 2 }

/-- Pending guide request from `wTeacher` proposing deadline 99. -/
def wGr1 : GuideRequest :=
  { id := wRid1, projectId := wPid, projectName := "Proj",
    teacherId := wTeacher.id, teacherName := wTeacher.fullName,
    ownerId := wOwner.id, ownerName := wOwner.fullName,
    status := "pending", declineReason := none, deadline := some 99,
    createdAt := 3, respondedAt := none }

/-- Competing pending guide request from `wTeacher2`. -/
def wGr2 : GuideRequest :=
  { wGr1 with id := wRid2, teacherId := wTeacher2.id,
              teacherName := wTeacher2.fullName, deadline := some 77 }

/-- Pending team invitation to `wBob`. -/
def wInv : TeamInvitation :=
  { id := wIid, projectId := wPid, projectName := "Proj",
    inviterId := wOwner.id, inviterName := wOwner.fullName,
    inviteeId := wBob.id, inviteeName := wBob.fullName,
    status := "pending", createdAt := 4, respondedAt := none }

/-- The base store for the witnesses. -/
def wDb : DB :=
  { users := [wOwner, wTeacher, wTeacher2, wBob, wAdmin, wEve],
    projects := [wProj],
    team_invitations := [wInv],
    guide_requests := [wGr1, wGr2] }

/-- Outcome of the owner accepting `wGr1`. -/
def wAcceptPair : DB × GuideRequest :=
  ((respond_to_guide_request wRid1 ⟨true, none⟩ wOwner 10 wDb).toOption).getD
    (wDb, wGr1)

/-- The stored project after the accept. -/
def wAcceptProj : Project := wAcceptPair.1.projects.getD 0 wProj

/-- The project with `wTeacher` installed as guide. -/
def wProjGuided : Project := { wProj with guideId := some wTeacher.id }

/-- Store in which `wTeacher` is the guide of the project. -/
def wDbGuided : DB := { wDb with projects := [wProjGuided] }

/-- Outcome of the guide completing milestone 3. -/
def wMilePair : DB × Project :=
  ((update_milestone wPid ⟨3, "completed"⟩ wTeacher 11 wDbGuided).toOption).getD
    (wDbGuided, wProjGuided)

/-- Outcome of `wBob` accepting the team invitation. -/
def wInvPair : DB × TeamInvitation :=
  ((respond_to_team_invite wIid ⟨true⟩ wBob 12 wDb).toOption).getD (wDb, wInv)

/-- The stored project after `wBob` joined. -/
def wJoinedProj : Project := wInvPair.1.projects.getD 0 wProj

/-- A full team: owner plus three members. -/
def wProjFull : Project :=
  { wProj with teamMembers :=
      [{ userId := wBob.id, role := none, isLeader := false, joinedAt := 5,
         fullName := none },
       { userId := "777777777777777777777777", role := none, isLeader := false,
         joinedAt := 6, fullName := none },
       { userId := "888888888888888888888888", role := none, isLeader := false,
         joinedAt := 7, fullName := none }] }

/-- Pending invitation to `wEve` for the (by now full) project. -/
def wInvEve : TeamInvitation :=
  { wInv with id := wNewId, inviteeId := wEve.id, inviteeName := wEve.fullName }

/-- Store whose only project already has a full team. -/
def wDbFull : DB :=
  { wDb with projects := [wProjFull], team_invitations := [wInvEve] }

/-- Store in which the guide requests reference a deleted project. -/
def wDbNoProj : DB := { wDb with projects := [] }

/-- Store with no guide requests yet. -/
def wDbNoReq : DB := { wDb with guide_requests := [] }

/-- Store whose invitation has already been accepted. -/
def wDbResponded : DB :=
  { wDb with team_invitations := [{ wInv with status := "accepted" }] }

/-- The milestone list after the guide completes milestone 3. -/
def wMs3 : List Milestone :=
  (setMilestoneByOrder 3 "completed" wProjGuided.milestones).getD []

/-! ## Witnesses -/

/-- C1 witness: the accept of `wGr1` concretely satisfies every
hypothesis and yields an accepted request. -/
theorem accept_declines_all_other_pending_witness :
    wAcceptPair.2.status = "accepted" :=
  (accept_declines_all_other_pending wRid1 ⟨true, none⟩ wOwner 10 wDb
    wAcceptPair.1 wAcceptPair.2 (by decide) rfl rfl).2.1

/-- C2 witness: after the concrete accept the stored project is
`in_progress`. -/
theorem accept_configures_project_witness :
    wAcceptProj.status = "in_progress" :=
  (accept_configures_project wRid1 ⟨true, none⟩ wOwner 10 wDb
    wAcceptPair.1 wAcceptPair.2 wProj wAcceptProj (by decide) (by decide) rfl
    rfl (by decide) (by decide) (by decide) (by decide)).2.2.2.1

/-- C3 witness: completing milestone 3 concretely satisfies the progress
equation (2 of 4 completed). -/
theorem milestone_update_progress_witness :
    wMilePair.2.progress =
      (100 * (wMilePair.2.milestones.filter
        (fun m => m.status == "completed")).length) / 4 :=
  (milestone_update_progress wPid ⟨3, "completed"⟩ wTeacher 11 wDbGuided
    wMilePair.1 wMilePair.2 wProjGuided (by decide) rfl (by decide) (by decide)
    (by decide)).1

/-- C4 witness: all three parts at concrete inputs — a 4th invite fails,
an accept against a full team fails, and the successful accept appends
exactly Bob with role `None` and leader flag off. -/
theorem team_size_cap_witness :
    send_team_invite wPid "eve@example.com" wOwner 13 wNewId wDbFull =
      .error (.badRequest "Team is full (max 4 members)") ∧
    respond_to_team_invite wNewId ⟨true⟩ wEve 14 wDbFull =
      .error (.badRequest "Team is now full") ∧
    wJoinedProj.teamMembers = wProj.teamMembers ++
      [{ userId := wBob.id, role := none, isLeader := false,
         joinedAt := 12, fullName := none }] :=
  ⟨team_size_cap.1 wPid "eve@example.com" wOwner 13 wNewId wDbFull wProjFull
      wEve (by decide) rfl (by decide) (by decide) rfl rfl (by decide),
   team_size_cap.2.1 wNewId ⟨true⟩ wEve 14 wDbFull wInvEve wProjFull
      (by decide) rfl (by decide) rfl (by decide) rfl rfl (by decide),
   (team_size_cap.2.2 wIid ⟨true⟩ wBob 12 wDb wInvPair.1 wInvPair.2 wInv
      wProj wJoinedProj (by decide) rfl rfl rfl (by decide) (by decide)
      (by decide) (by decide)).1⟩

/-- C5 witness: a fully valid RequestToGuide call concretely hits the
missing-attribute crash. -/
theorem request_to_guide_crashes_witness :
    send_guide_request wPid ⟨⟩ wTeacher 14 wDbNoReq =
      .error (.internalError
        "AttributeError: SendGuideRequestRequest object has no attribute deadline") :=
  request_to_guide_crashes wPid ⟨⟩ wTeacher 14 wDbNoReq wProj (by decide)
    (by decide) rfl rfl rfl rfl

/-- C6 witness: responding to the already-accepted invitation fails, and
so does a second response right after a successful first one. -/
theorem respond_invitation_second_call_fails_witness :
    respond_to_team_invite wIid ⟨false⟩ wBob 13 wDbResponded =
      .error (.badRequest "Invitation already responded to") ∧
    respond_to_team_invite wIid ⟨false⟩ wBob 13 wInvPair.1 =
      .error (.badRequest "Invitation already responded to") :=
  ⟨respond_invitation_second_call_fails.1 wIid ⟨false⟩ wBob 13 wDbResponded
      { wInv with status := "accepted" } (by decide) rfl (by decide) (by decide),
   respond_invitation_second_call_fails.2 wIid ⟨true⟩ ⟨false⟩ wBob 12 13
      wDb wInvPair.1 wInvPair.2 rfl⟩

/-- C7 witness: the student owner is refused, the teacher guide succeeds
on the same call. -/
theorem student_cannot_complete_milestone_witness :
    update_milestone wPid ⟨3, "completed"⟩ wOwner 11 wDbGuided =
      .error (.forbidden "Only the project guide can mark a phase as completed.") ∧
    update_milestone wPid ⟨3, "completed"⟩ wTeacher 11 wDbGuided =
      .ok (wMilePair.1, wMilePair.2) :=
  ⟨student_cannot_complete_milestone.1 wPid ⟨3, "completed"⟩ wOwner 11
      wDbGuided wProjGuided (by decide) rfl rfl (Or.inl rfl) rfl,
   by
    obtain ⟨db', up, hok⟩ := student_cannot_complete_milestone.2 wPid
      ⟨3, "completed"⟩ wTeacher 11 wDbGuided wProjGuided wMs3 (by decide) rfl
      rfl rfl rfl rfl
    have h2 : wMilePair = (db', up) := by
      show (update_milestone wPid ⟨3, "completed"⟩ wTeacher 11
        wDbGuided).toOption.getD (wDbGuided, wProjGuided) = (db', up)
      rw [hok]
      rfl
    rw [h2, hok]⟩

/-- C8 witness: both amended categories hold at concrete inputs — a
malformed id gives BadRequest, a well-formed unknown id gives NotFound. -/
theorem get_project_error_categories_witness :
    get_project "xyz" cexUser cexDB =
      .error (.badRequest "Invalid project ID format") ∧
    get_project "ffffffffffffffffffffffff" cexUser cexDB =
      .error (.notFound "Project not found") :=
  ⟨(get_project_error_categories "xyz" cexUser cexDB).1 (by decide),
   (get_project_error_categories "ffffffffffffffffffffffff" cexUser cexDB).2
      (by decide) rfl⟩

/-- C9 witness: with the project deleted, the decline still succeeds and
the accept fails NotFound, on concrete inputs. -/
theorem decline_ignores_missing_project_witness :
    respond_to_guide_request wRid1 ⟨false, some "busy"⟩ wOwner 10 wDbNoProj =
      .ok (guideDeclineState wRid1 "busy" 10 wDbNoProj,
        { wGr1 with status := "declined", declineReason := some "busy",
                    respondedAt := some 10 }) ∧
    respond_to_guide_request wRid1 ⟨true, some "busy"⟩ wOwner 10 wDbNoProj =
      .error (.notFound "Project no longer exists") :=
  ⟨(decline_ignores_missing_project wRid1 "busy" wOwner 10 wDbNoProj wGr1
      (by decide) rfl rfl rfl rfl (by decide)).1,
   (decline_ignores_missing_project wRid1 "busy" wOwner 10 wDbNoProj wGr1
      (by decide) rfl rfl rfl rfl (by decide)).2 (by decide)⟩

/-- C10 witness: the admin sees the (status-matching) project although
they are neither owner nor member nor guide of it. -/
theorem admin_list_projects_unrestricted_witness :
    wProj ∈ list_projects (some "not_started") none wAdmin wDb :=
  ((admin_list_projects_unrestricted (some "not_started") wAdmin wDb
      (by decide) (by decide)).1 wProj).mpr
    ⟨by decide, fun s hs _ => by cases hs; rfl⟩

end ProjectHub
